import Mathlib

/-!
Shallow embedding of the `anchor_test_contract` Anchor program
(src/programs/anchor-test-contract/src/lib.rs).

Accounts are modelled as a Lean structure mirroring `UserAccount`; the
four instruction handlers are pure functions returning
`Except CustomError _`.  An `Except.error` result models the Solana/Anchor
runtime rolling back every account mutation of the failing instruction,
so on error no account state is observable; `transfer_tokens_body`
additionally exposes the in-memory state at the handler's exit point so
that the rollback behaviour itself can be stated.

`u64` balances are modelled as `Nat` together with the explicit bound
`U64_MOD = 2 ^ 64`; `checked_sub` / `checked_add` mirror Rust's
`u64::checked_sub` / `u64::checked_add`.  Rust's `String::len` is the
UTF-8 byte length, modelled by `String.utf8ByteSize`.
-/

namespace AnchorTestContract

/-- Rust `Pubkey` (32 raw bytes), modelled abstractly as a natural number. -/
abbrev Pubkey := Nat

/-- `u64::MAX + 1`. -/
def U64_MOD : Nat := 2 ^ 64

/-- The on-chain `UserAccount` record (lib.rs, `struct UserAccount`). -/
structure UserAccount where
  authority : Pubkey
  name : String
  age : Nat
  balance : Nat
  is_active : Bool
  created_at : Int
deriving Repr, DecidableEq

/-- The program's `CustomError` enum (lib.rs, `enum CustomError`). -/
inductive CustomError where
  | NameTooLong
  | InvalidAge
  | InvalidAmount
  | InsufficientFunds
  | AccountInactive
  | AccountAlreadyInactive
  | MathOverflow
deriving Repr, DecidableEq

/-- Rust `u64::checked_sub`: `none` exactly when the subtraction would underflow. -/
def checked_sub (a b : Nat) : Option Nat :=
  if b ≤ a then some (a - b) else none

/-- Rust `u64::checked_add`: `none` exactly when the sum exceeds `u64::MAX`. -/
def checked_add (a b : Nat) : Option Nat :=
  if a + b < U64_MOD then some (a + b) else none

/-- Handler `initialize_user` (lib.rs lines 49-76).  `auth` is the signing
authority's key and `now` the clock's `unix_timestamp`. -/
def initialize_user (auth : Pubkey) (name : String) (age : Nat) (now : Int) :
    Except CustomError UserAccount :=
  if name.utf8ByteSize ≤ 32 then
    if 0 < age then
      .ok { authority := auth, name := name, age := age,
            balance := 0, is_active := true, created_at := now }
    else .error .InvalidAge
  else .error .NameTooLong

/-- Handler `update_user` (lib.rs lines 80-101): the optional name is
validated and written first, then the optional age; a failed `require!`
aborts the instruction, rolling back any earlier write. -/
def update_user (user : UserAccount) (new_name : Option String) (new_age : Option Nat) :
    Except CustomError UserAccount :=
  match new_name with
  | some name =>
    if name.utf8ByteSize ≤ 32 then
      match new_age with
      | some age =>
        if 0 < age then .ok { user with name := name, age := age }
        else .error .InvalidAge
      | none => .ok { user with name := name }
    else .error .NameTooLong
  | none =>
    match new_age with
    | some age =>
      if 0 < age then .ok { user with age := age }
      else .error .InvalidAge
    | none => .ok user

/-- The body of handler `transfer_tokens` (lib.rs lines 117-155) as it
executes: the result together with the in-memory sender and receiver at
the point the function returns.  On the `checked_add` failure path the
sender has already been debited in memory. -/
def transfer_tokens_body (sender receiver : UserAccount) (amount : Nat) :
    Except CustomError Unit × UserAccount × UserAccount :=
  if 0 < amount then
    if amount ≤ sender.balance then
      if sender.is_active then
        if receiver.is_active then
          match checked_sub sender.balance amount with
          | none => (.error .MathOverflow, sender, receiver)
          | some sb =>
            let sender1 := { sender with balance := sb }
            match checked_add receiver.balance amount with
            | none => (.error .MathOverflow, sender1, receiver)
            | some rb => (.ok (), sender1, { receiver with balance := rb })
        else (.error .AccountInactive, sender, receiver)
      else (.error .AccountInactive, sender, receiver)
    else (.error .InsufficientFunds, sender, receiver)
  else (.error .InvalidAmount, sender, receiver)

/-- Handler `transfer_tokens` with the runtime's transactional semantics:
when the body errors, the Anchor runtime discards all account mutations,
so no state is returned. -/
def transfer_tokens (sender receiver : UserAccount) (amount : Nat) :
    Except CustomError (UserAccount × UserAccount) :=
  match transfer_tokens_body sender receiver amount with
  | (.ok _, s, r) => .ok (s, r)
  | (.error e, _, _) => .error e

/-- Handler `deactivate_user` (lib.rs lines 159-168). -/
def deactivate_user (user : UserAccount) : Except CustomError UserAccount :=
  if user.is_active then .ok { user with is_active := false }
  else .error .AccountAlreadyInactive

/-- Helper `is_account_valid` (lib.rs lines 335-339). -/
def is_account_valid (account : UserAccount) : Bool :=
  account.is_active && !account.name.isEmpty && decide (0 < account.age)

/-- Helper `calculate_fee` (lib.rs lines 343-346). -/
def calculate_fee (amount : Nat) : Nat :=
  let fee_rate := 100
  amount / fee_rate

/-- Refinement reference for claim C4, following the spec's words only:
the first failing check of the transfer validation order
(`InvalidAmount`, then `InsufficientFunds`, then sender
`AccountInactive`, then receiver `AccountInactive`), `none` when all four
checks pass. -/
def spec_first_failing_check (sender receiver : UserAccount) (amount : Nat) :
    Option CustomError :=
  if amount = 0 then some .InvalidAmount
  else if sender.balance < amount then some .InsufficientFunds
  else if sender.is_active = false then some .AccountInactive
  else if receiver.is_active = false then some .AccountInactive
  else none

/-- A concrete active account used by witnesses. -/
def acctA : UserAccount :=
  { authority := 1, name := "Alice", age := 30, balance := 1000,
    is_active := true, created_at := 10 }

/-- A second concrete active account used by witnesses. -/
def acctB : UserAccount :=
  { authority := 2, name := "Bob", age := 25, balance := 7,
    is_active := true, created_at := 11 }

/-- A concrete active account with zero balance. -/
def acctZero : UserAccount :=
  { authority := 3, name := "Zed", age := 20, balance := 0,
    is_active := true, created_at := 12 }

/-- A concrete inactive account. -/
def acctInactive : UserAccount :=
  { authority := 4, name := "Carol", age := 40, balance := 50,
    is_active := false, created_at := 13 }

/-- A concrete active account whose balance is close to `u64::MAX`. -/
def acctRich : UserAccount :=
  { authority := 5, name := "Rich", age := 50, balance := U64_MOD - 3,
    is_active := true, created_at := 14 }

/-- Claim C1: for active sender and receiver and `0 < amount ≤ sender.balance`
with `receiver.balance + amount` within `u64`, `transfer_tokens` succeeds,
debits the sender by `amount`, credits the receiver by `amount`, and
conserves the sum of the two balances. -/
theorem transfer_tokens_conserves (s r : UserAccount) (amount : Nat)
    (hs : s.is_active = true) (hr : r.is_active = true)
    (h0 : 0 < amount) (hb : amount ≤ s.balance)
    (hov : r.balance + amount < U64_MOD) :
    ∃ s' r', transfer_tokens s r amount = .ok (s', r') ∧
      s'.balance = s.balance - amount ∧
      r'.balance = r.balance + amount ∧
      s'.balance + r'.balance = s.balance + r.balance := by
  refine ⟨{ s with balance := s.balance - amount },
          { r with balance := r.balance + amount }, ?_, rfl, rfl, ?_⟩
  · simp [transfer_tokens, transfer_tokens_body, checked_sub, checked_add,
          hs, hr, h0, hb, hov]
  · show s.balance - amount + (r.balance + amount) = s.balance + r.balance
    omega

/-- Witness for C1: the transfer of 500 from `acctA` (balance 1000) to
`acctB` (balance 7) succeeds and conserves the total. -/
theorem transfer_tokens_conserves_witness :
    ∃ s' r', transfer_tokens acctA acctB 500 = .ok (s', r') ∧
      s'.balance = acctA.balance - 500 ∧
      r'.balance = acctB.balance + 500 ∧
      s'.balance + r'.balance = acctA.balance + acctB.balance :=
  transfer_tokens_conserves acctA acctB 500 rfl rfl
    (by decide) (by decide) (by decide)

/-- Claim C2 counterexample: with `amount = 1` and a zero-balance active
sender, the checked subtraction would fail, yet the call fails with
`InsufficientFunds`, not `MathOverflow` as the claim states. -/
theorem transfer_tokens_matherr_cex :
    checked_sub acctZero.balance 1 = none ∧
    transfer_tokens acctZero acctB 1 = .error .InsufficientFunds ∧
    CustomError.InsufficientFunds ≠ CustomError.MathOverflow :=
  ⟨rfl, rfl, by decide⟩

/-- Claim C2 (amended): when the four validation checks pass and crediting
the receiver would overflow `u64`, the call fails with `MathOverflow`; the
receiver is not mutated even in memory, and the in-memory sender debit is
rolled back by the runtime (an error result carries no state). -/
theorem transfer_tokens_overflow (s r : UserAccount) (amount : Nat)
    (hs : s.is_active = true) (hr : r.is_active = true)
    (h0 : 0 < amount) (hb : amount ≤ s.balance)
    (hov : U64_MOD ≤ r.balance + amount) :
    transfer_tokens s r amount = .error .MathOverflow ∧
    (transfer_tokens_body s r amount).2.2 = r := by
  have h1 : ¬ (r.balance + amount < U64_MOD) := by omega
  constructor <;>
    simp [transfer_tokens, transfer_tokens_body, checked_sub, checked_add,
          hs, hr, h0, hb, h1]

/-- Witness for the amended C2: transferring 5 to `acctRich`
(balance `2 ^ 64 - 3`) overflows and fails with `MathOverflow`. -/
theorem transfer_tokens_overflow_witness :
    transfer_tokens acctA acctRich 5 = .error .MathOverflow ∧
    (transfer_tokens_body acctA acctRich 5).2.2 = acctRich :=
  transfer_tokens_overflow acctA acctRich 5 rfl rfl
    (by decide) (by decide) (by decide)

/-- Claim C3 counterexample: `update_user` has no `is_active` check: on the
inactive record `acctInactive` it succeeds and updates the name, while the
claim says every call on an inactive record must fail. -/
theorem update_user_inactive_cex :
    acctInactive.is_active = false ∧
    update_user acctInactive (some "Bob") none =
      .ok { acctInactive with name := "Bob" } :=
  ⟨rfl, rfl⟩

/-- Claim C3 (amended): `update_user` does not require an active record: on
a record with `is_active = false` it succeeds whenever the supplied
optional fields pass validation, writing exactly the provided name and age
(each absent field left untouched, every other field unchanged), and the
record stays inactive. -/
theorem update_user_no_active_check (u : UserAccount)
    (nn : Option String) (na : Option Nat)
    (hin : u.is_active = false)
    (hname : ∀ s, nn = some s → s.utf8ByteSize ≤ 32)
    (hage : ∀ a, na = some a → 0 < a) :
    update_user u nn na =
      .ok { u with name := nn.getD u.name, age := na.getD u.age } ∧
    ({ u with name := nn.getD u.name, age := na.getD u.age } :
        UserAccount).is_active = false := by
  cases nn with
  | none =>
    cases na with
    | none => exact ⟨rfl, hin⟩
    | some a =>
      have ha := hage a rfl
      exact ⟨by simp [update_user, ha], hin⟩
  | some s =>
    have hs := hname s rfl
    cases na with
    | none => exact ⟨by simp [update_user, hs], hin⟩
    | some a =>
      have ha := hage a rfl
      exact ⟨by simp [update_user, hs, ha], hin⟩

/-- Witness for the amended C3: updating the inactive `acctInactive` with
name `"Dora"` and age 41 succeeds, writes exactly those two fields, and
the record stays inactive. -/
theorem update_user_no_active_check_witness :
    acctInactive.is_active = false ∧
    (update_user acctInactive (some "Dora") (some 41) =
       .ok { acctInactive with name := "Dora", age := 41 } ∧
     ({ acctInactive with name := "Dora", age := 41 } :
         UserAccount).is_active = false) :=
  ⟨rfl, update_user_no_active_check acctInactive (some "Dora") (some 41) rfl
     (fun s hs => by cases hs; decide) (fun a ha => by cases ha; decide)⟩

/-- Claim C4: `transfer_tokens` checks its preconditions in the spec's
fixed short-circuit order; whenever `spec_first_failing_check` (the
spec-side validation order) designates a first failing check, the handler
fails with exactly that error. -/
theorem transfer_tokens_check_order (s r : UserAccount) (amount : Nat)
    (e : CustomError) (h : spec_first_failing_check s r amount = some e) :
    transfer_tokens s r amount = .error e := by
  rcases Nat.eq_zero_or_pos amount with h0 | h0
  · subst h0
    simp [spec_first_failing_check] at h
    simp [transfer_tokens, transfer_tokens_body, ← h]
  · have h0' : ¬ (amount = 0) := by omega
    by_cases hb : s.balance < amount
    · have hb2 : ¬ (amount ≤ s.balance) := by omega
      simp [spec_first_failing_check, h0', hb] at h
      simp [transfer_tokens, transfer_tokens_body, h0, hb2, ← h]
    · have hb2 : amount ≤ s.balance := by omega
      cases hsa : s.is_active with
      | false =>
        simp [spec_first_failing_check, h0', hb, hsa] at h
        simp [transfer_tokens, transfer_tokens_body, h0, hb2, hsa, ← h]
      | true =>
        cases hra : r.is_active with
        | false =>
          simp [spec_first_failing_check, h0', hb, hsa, hra] at h
          simp [transfer_tokens, transfer_tokens_body, h0, hb2, hsa, hra, ← h]
        | true =>
          simp [spec_first_failing_check, h0', hb, hsa, hra] at h

/-- Witness for C4: an inactive sender with sufficient balance fails with
`AccountInactive` (the activity check comes after the balance check). -/
theorem transfer_tokens_check_order_witness :
    spec_first_failing_check acctInactive acctB 10 = some .AccountInactive ∧
    transfer_tokens acctInactive acctB 10 = .error .AccountInactive :=
  ⟨rfl, transfer_tokens_check_order acctInactive acctB 10 .AccountInactive rfl⟩

/-- Claim C5: for a name whose length (Rust `String::len`, i.e. UTF-8
bytes) is at most 32 and an age greater than 0, `initialize_user` succeeds
and writes the given name and age, balance 0, `is_active = true`,
`created_at = now` and the signer as authority. -/
theorem initialize_user_ok (auth : Pubkey) (name : String) (age : Nat)
    (now : Int) (hn : name.utf8ByteSize ≤ 32) (ha : 0 < age) :
    initialize_user auth name age now =
      .ok { authority := auth, name := name, age := age, balance := 0,
            is_active := true, created_at := now } := by
  simp [initialize_user, hn, ha]

/-- Witness for C5: initializing with name `"Eve"` and age 30 at time 99
for authority 9 yields exactly the expected fresh record. -/
theorem initialize_user_ok_witness :
    initialize_user 9 "Eve" 30 99 =
      .ok { authority := 9, name := "Eve", age := 30, balance := 0,
            is_active := true, created_at := 99 } :=
  initialize_user_ok 9 "Eve" 30 99 (by decide) (by decide)

/-- The 17-character, 34-byte name used to refute claim C6. -/
def wideName : String := "ααααααααααααααααα"

/-- Claim C6 counterexample: `wideName` has 17 characters, at most 32, yet
both `initialize_user` and `update_user` reject it with `NameTooLong`: the
code bounds the UTF-8 byte length (34 here), not the character count. -/
theorem name_length_chars_cex :
    wideName.length = 17 ∧ wideName.utf8ByteSize = 34 ∧
    initialize_user 1 wideName 30 0 = .error .NameTooLong ∧
    update_user acctA (some wideName) none = .error .NameTooLong :=
  ⟨rfl, rfl, rfl, rfl⟩

/-- Claim C6 (amended): the length check bounds the UTF-8 byte length
(Rust `String::len`): a name of more than 32 bytes — in particular every
name of more than 32 characters — makes `initialize_user` and
`update_user` fail with `NameTooLong`, and a name of at most 32 bytes
never produces `NameTooLong`. -/
theorem name_length_check (name : String) (auth : Pubkey) (age : Nat)
    (now : Int) (u : UserAccount) (na : Option Nat) :
    (initialize_user auth name age now = .error .NameTooLong ↔
       32 < name.utf8ByteSize) ∧
    (update_user u (some name) na = .error .NameTooLong ↔
       32 < name.utf8ByteSize) := by
  by_cases hn : name.utf8ByteSize ≤ 32
  · have hn' : ¬ (32 < name.utf8ByteSize) := by omega
    constructor
    · simp only [initialize_user, if_pos hn, hn', iff_false]
      split <;> simp
    · simp only [update_user, if_pos hn, hn', iff_false]
      cases na with
      | none => simp
      | some a => split <;> (try split) <;> simp
  · have hn' : 32 < name.utf8ByteSize := by omega
    constructor
    · simp [initialize_user, hn, hn']
    · simp [update_user, hn, hn']

/-- Helper: every successful `update_user` leaves balance, activity,
authority and creation time unchanged. -/
theorem update_user_ok_fields (u : UserAccount) (nn : Option String)
    (na : Option Nat) (u' : UserAccount)
    (hok : update_user u nn na = .ok u') :
    u'.balance = u.balance ∧ u'.is_active = u.is_active ∧
    u'.authority = u.authority ∧ u'.created_at = u.created_at := by
  cases nn <;> cases na <;> simp only [update_user] at hok <;>
    (try split at hok) <;> (try split at hok) <;>
    first
      | (injection hok with h; subst h; exact ⟨rfl, rfl, rfl, rfl⟩)
      | exact (Except.noConfusion hok)

/-- Helper: a transfer from an inactive sender always errors. -/
theorem transfer_sender_inactive (u r : UserAccount) (amount : Nat)
    (h : u.is_active = false) :
    ∃ e, transfer_tokens u r amount = .error e := by
  unfold transfer_tokens transfer_tokens_body
  by_cases h0 : 0 < amount
  · by_cases hb : amount ≤ u.balance
    · exact ⟨.AccountInactive, by simp [h0, hb, h]⟩
    · exact ⟨.InsufficientFunds, by simp [h0, hb]⟩
  · exact ⟨.InvalidAmount, by simp [h0]⟩

/-- Helper: a transfer to an inactive receiver always errors. -/
theorem transfer_receiver_inactive (s u : UserAccount) (amount : Nat)
    (h : u.is_active = false) :
    ∃ e, transfer_tokens s u amount = .error e := by
  unfold transfer_tokens transfer_tokens_body
  by_cases h0 : 0 < amount
  · by_cases hb : amount ≤ s.balance
    · by_cases hsa : s.is_active
      · exact ⟨.AccountInactive, by simp [h0, hb, hsa, h]⟩
      · exact ⟨.AccountInactive, by simp [h0, hb, hsa]⟩
    · exact ⟨.InsufficientFunds, by simp [h0, hb]⟩
  · exact ⟨.InvalidAmount, by simp [h0]⟩

/-- Helper: the exact shape of the accounts a successful transfer returns. -/
theorem transfer_tokens_ok_shape (s r : UserAccount) (amount : Nat)
    (s' r' : UserAccount)
    (hok : transfer_tokens s r amount = .ok (s', r')) :
    s' = { s with balance := s.balance - amount } ∧
    r' = { r with balance := r.balance + amount } := by
  unfold transfer_tokens transfer_tokens_body at hok
  by_cases h0 : 0 < amount
  · by_cases hb : amount ≤ s.balance
    · by_cases hsa : s.is_active
      · by_cases hra : r.is_active
        · by_cases hov : r.balance + amount < U64_MOD
          · simp [h0, hb, hsa, hra, checked_sub, checked_add, hov] at hok
            obtain ⟨h1, h2⟩ := hok
            subst h1; subst h2
            constructor <;> simp [hsa, hra]
          · simp [h0, hb, hsa, hra, checked_sub, checked_add, hov] at hok
        · simp [h0, hb, hsa, hra] at hok
      · simp [h0, hb, hsa] at hok
    · simp [h0, hb] at hok
  · simp [h0] at hok

/-- Helper: the exact shape of a successful deactivation's result. -/
theorem deactivate_user_ok_shape (u ud : UserAccount)
    (hok : deactivate_user u = .ok ud) :
    ud = { u with is_active := false } := by
  unfold deactivate_user at hok
  by_cases h : u.is_active
  · simp [h] at hok
    exact hok.symm
  · simp [h] at hok

/-- Claim C7: deactivating an active record succeeds with
`is_active := false`, and deactivating any inactive record (in particular
the result of the first call) fails with `AccountAlreadyInactive`; the
error rolls the instruction back, so the record is unchanged. -/
theorem deactivate_user_twice (u : UserAccount) (h : u.is_active = true) :
    deactivate_user u = .ok { u with is_active := false } ∧
    ∀ v : UserAccount, v.is_active = false →
      deactivate_user v = .error .AccountAlreadyInactive := by
  refine ⟨by simp [deactivate_user, h], fun v hv => by simp [deactivate_user, hv]⟩

/-- Witness for C7: deactivating `acctA` twice: the first call succeeds
turning `is_active` off, the second fails with `AccountAlreadyInactive`. -/
theorem deactivate_user_twice_witness :
    acctA.is_active = true ∧
    deactivate_user acctA = .ok { acctA with is_active := false } ∧
    deactivate_user { acctA with is_active := false } =
      .error .AccountAlreadyInactive :=
  ⟨rfl, (deactivate_user_twice acctA rfl).1,
    (deactivate_user_twice acctA rfl).2 { acctA with is_active := false } rfl⟩

/-- Claim C8: inactivity is terminal: on a record with
`is_active = false`, a successful `update_user` leaves it inactive, any
`transfer_tokens` involving it (as sender or receiver) errors (hence rolls
back), and `deactivate_user` errors — no handler sets `is_active` back to
`true`. -/
theorem inactive_terminal (u : UserAccount) (h : u.is_active = false) :
    (∀ nn na u', update_user u nn na = .ok u' → u'.is_active = false) ∧
    (∀ r amount, ∃ e, transfer_tokens u r amount = .error e) ∧
    (∀ s amount, ∃ e, transfer_tokens s u amount = .error e) ∧
    deactivate_user u = .error .AccountAlreadyInactive := by
  refine ⟨fun nn na u' hok => ?_,
          fun r amount => transfer_sender_inactive u r amount h,
          fun s amount => transfer_receiver_inactive s u amount h,
          by simp [deactivate_user, h]⟩
  exact (update_user_ok_fields u nn na u' hok).2.1.trans h

/-- Witness for C8: the inactive `acctInactive` stays inactive across a
successful update, and transfer and deactivation involving it error out. -/
theorem inactive_terminal_witness :
    acctInactive.is_active = false ∧
    ({ acctInactive with name := "Erin" } : UserAccount).is_active = false ∧
    (∃ e, transfer_tokens acctInactive acctB 10 = .error e) ∧
    (∃ e, transfer_tokens acctA acctInactive 10 = .error e) ∧
    deactivate_user acctInactive = .error .AccountAlreadyInactive :=
  ⟨rfl,
   (inactive_terminal acctInactive rfl).1 (some "Erin") none
     { acctInactive with name := "Erin" } rfl,
   (inactive_terminal acctInactive rfl).2.1 acctB 10,
   (inactive_terminal acctInactive rfl).2.2.1 acctA 10,
   (inactive_terminal acctInactive rfl).2.2.2⟩

/-- Claim C9: frame conditions: a successful `update_user` changes at most
name and age; a successful `transfer_tokens` changes at most the two
balances; a successful `deactivate_user` changes at most `is_active`; in
particular no post-creation handler ever changes `authority` or
`created_at`. -/
theorem frame_conditions (u s r : UserAccount) (nn : Option String)
    (na : Option Nat) (amount : Nat) (u' ud s' r' : UserAccount) :
    (update_user u nn na = .ok u' →
       u'.balance = u.balance ∧ u'.is_active = u.is_active ∧
       u'.authority = u.authority ∧ u'.created_at = u.created_at) ∧
    (transfer_tokens s r amount = .ok (s', r') →
       s'.name = s.name ∧ s'.age = s.age ∧ s'.is_active = s.is_active ∧
       s'.authority = s.authority ∧ s'.created_at = s.created_at ∧
       r'.name = r.name ∧ r'.age = r.age ∧ r'.is_active = r.is_active ∧
       r'.authority = r.authority ∧ r'.created_at = r.created_at) ∧
    (deactivate_user u = .ok ud →
       ud.name = u.name ∧ ud.age = u.age ∧ ud.balance = u.balance ∧
       ud.authority = u.authority ∧ ud.created_at = u.created_at) := by
  refine ⟨fun hok => update_user_ok_fields u nn na u' hok,
          fun hok => ?_, fun hok => ?_⟩
  · obtain ⟨hs', hr'⟩ := transfer_tokens_ok_shape s r amount s' r' hok
    subst hs'; subst hr'
    exact ⟨rfl, rfl, rfl, rfl, rfl, rfl, rfl, rfl, rfl, rfl⟩
  · have hd := deactivate_user_ok_shape u ud hok
    subst hd
    exact ⟨rfl, rfl, rfl, rfl, rfl⟩

/-- Witness for C9: concrete update, transfer and deactivation runs whose
successful results preserve the framed fields. -/
theorem frame_conditions_witness :
    (({ acctA with name := "Bob", age := 31 } : UserAccount).balance = acctA.balance ∧
     ({ acctA with name := "Bob", age := 31 } : UserAccount).is_active = acctA.is_active ∧
     ({ acctA with name := "Bob", age := 31 } : UserAccount).authority = acctA.authority ∧
     ({ acctA with name := "Bob", age := 31 } : UserAccount).created_at = acctA.created_at) ∧
    (({ acctA with balance := 500 } : UserAccount).authority = acctA.authority ∧
     ({ acctA with balance := 500 } : UserAccount).created_at = acctA.created_at ∧
     ({ acctB with balance := 507 } : UserAccount).authority = acctB.authority ∧
     ({ acctB with balance := 507 } : UserAccount).created_at = acctB.created_at) ∧
    (({ acctA with is_active := false } : UserAccount).authority = acctA.authority ∧
     ({ acctA with is_active := false } : UserAccount).created_at = acctA.created_at) := by
  have h1 := (frame_conditions acctA acctA acctB (some "Bob") (some 31) 500
    { acctA with name := "Bob", age := 31 } { acctA with is_active := false }
    { acctA with balance := 500 } { acctB with balance := 507 })
  have hu := h1.1 rfl
  have ht := h1.2.1 rfl
  have hd := h1.2.2 rfl
  exact ⟨⟨hu.1, hu.2.1, hu.2.2.1, hu.2.2.2⟩,
         ⟨ht.2.2.2.1, ht.2.2.2.2.1, ht.2.2.2.2.2.2.2.2.1, ht.2.2.2.2.2.2.2.2.2⟩,
         ⟨hd.2.2.2.1, hd.2.2.2.2⟩⟩

/-- Claim C10: `initialize_user` accepts the empty name: for any positive
age it succeeds with an active, freshly timestamped record whose name is
empty, and `is_account_valid` is `false` on that record because it demands
a non-empty name. -/
theorem initialize_empty_name (auth : Pubkey) (age : Nat) (now : Int)
    (ha : 0 < age) :
    ∃ u, initialize_user auth "" age now = .ok u ∧
      u.is_active = true ∧ u.created_at = now ∧ u.name = "" ∧
      is_account_valid u = false := by
  refine ⟨{ authority := auth, name := "", age := age, balance := 0,
            is_active := true, created_at := now }, ?_, rfl, rfl, rfl, ?_⟩
  · have hw : ("" : String).utf8ByteSize ≤ 32 := by decide
    simp [initialize_user, hw, ha]
  · have he : ("" : String).isEmpty = true := by decide
    simp [is_account_valid, he]

/-- Witness for C10: name `""` and age 30 at time 77 for authority 8:
the record is created active yet `is_account_valid` rejects it. -/
theorem initialize_empty_name_witness :
    ∃ u, initialize_user 8 "" 30 77 = .ok u ∧
      u.is_active = true ∧ u.created_at = 77 ∧ u.name = "" ∧
      is_account_valid u = false :=
  initialize_empty_name 8 30 77 (by decide)

end AnchorTestContract
